import Mathlib

/-!
Verification of the two-agent collaboration orchestrator (`main.py`,
class `AIAgentSystem`).

The program is a single synchronous Python class.  We embed it shallowly:

* The two outbound network calls (the `genai` SDK call inside
  `gemini_agent` and the `requests.post` call inside `groq_agent`) are
  the only non-deterministic effects.  Each is modelled as an oracle,
  a function from the prompt string to the call's outcome
  (`GeminiCall` / `GroqCall`).  An outcome is either a raised exception
  (carrying Python's `str(e)`) or the data the call produced.
* The mutable instance field `self.conversation` is threaded as an
  explicit `List String` state value.
* Parsed JSON bodies (the value of `response.json()` in `groq_agent`,
  and the value tree written by `json.dump` in `save_results`) are
  modelled by the inductive type `PyVal`, with `pyRepr` modelling
  Python's `repr`/`str` rendering of such values.
* Python `int(...)` string parsing (sign, decimal digits, underscores
  between digits) and `str.strip()` (ASCII whitespace) are modelled
  over `List Char`.
* Console `print` calls are pure I/O with no effect on any value the
  program computes; they are not modelled.

All f-string prompt templates are transcribed character-for-character
from the source, including indentation, blank template lines and the
trailing space after "two AI agents ".
-/

/-! ## String helpers -/

/-- `StrContains s pat`: `pat` occurs as a contiguous substring of `s`. -/
def StrContains (s pat : String) : Prop :=
  ∃ pre post : String, s = pre ++ (pat ++ post)

/-- `StrBegins s pat`: `s` starts with the string `pat`. -/
def StrBegins (s pat : String) : Prop :=
  ∃ rest : String, s = pat ++ rest

/-- Does the character-list `pat` occur at the head of `s`? -/
def listStarts : List Char → List Char → Bool
  | [], _ => true
  | _ :: _, [] => false
  | c :: ps, d :: ds => (c == d) && listStarts ps ds

/-- Does the character-list `pat` occur anywhere inside `s`? -/
def listHas : List Char → List Char → Bool
  | pat, [] => listStarts pat []
  | pat, d :: ds => listStarts pat (d :: ds) || listHas pat ds

/-- Executable substring test on strings. -/
def strContainsB (s pat : String) : Bool :=
  listHas pat.toList s.toList

/-! ## A model of Python values (parsed JSON bodies) -/

/-- A Python value as produced by `response.json()` / consumed by
`json.dump`: strings, integers, booleans, `None`, lists and
string-keyed dicts. -/
inductive PyVal where
  | str (s : String)
  | int (n : Int)
  | bool (b : Bool)
  | null
  | list (xs : List PyVal)
  | dict (kvs : List (String × PyVal))

mutual

/-- Structural equality of Python values (Python `==` on JSON-like
values). -/
def pyValBeq : PyVal → PyVal → Bool
  | .str a, .str b => a == b
  | .int a, .int b => a == b
  | .bool a, .bool b => a == b
  | .null, .null => true
  | .list a, .list b => pyValListBeq a b
  | .dict a, .dict b => pyValKVsBeq a b
  | _, _ => false

/-- Elementwise equality of Python lists. -/
def pyValListBeq : List PyVal → List PyVal → Bool
  | [], [] => true
  | x :: xs, y :: ys => pyValBeq x y && pyValListBeq xs ys
  | _, _ => false

/-- Pairwise equality of Python dict entry lists. -/
def pyValKVsBeq : List (String × PyVal) → List (String × PyVal) → Bool
  | [], [] => true
  | (k, v) :: xs, (k', v') :: ys => k == k' && pyValBeq v v' && pyValKVsBeq xs ys
  | _, _ => false

end

instance : BEq PyVal := ⟨pyValBeq⟩

mutual

/-- Python `repr` (equivalently `str` on containers) of a `PyVal`.
String escaping is modelled for quote-free strings: a string renders
as `'` + contents + `'`. -/
def pyRepr : PyVal → String
  | .str s => "\x27" ++ s ++ "\x27"
  | .int n => toString n
  | .bool b => if b then "True" else "False"
  | .null => "None"
  | .list xs => "[" ++ String.intercalate ", " (pyReprList xs) ++ "]"
  | .dict kvs => "\x7b" ++ String.intercalate ", " (pyReprKVs kvs) ++ "\x7d"

/-- `repr` of each element of a Python list. -/
def pyReprList : List PyVal → List String
  | [] => []
  | x :: xs => pyRepr x :: pyReprList xs

/-- `repr` of each `key: value` pair of a Python dict. -/
def pyReprKVs : List (String × PyVal) → List String
  | [] => []
  | (k, v) :: kvs => ("\x27" ++ k ++ "\x27: " ++ pyRepr v) :: pyReprKVs kvs

end

/-- Association-list lookup, modelling Python dict key access on the
string-keyed dicts of `PyVal.dict`. -/
def dictGet (kvs : List (String × PyVal)) (k : String) : Option PyVal :=
  match kvs with
  | [] => none
  | (k', v) :: rest => if k' = k then some v else dictGet rest k

/-- Python `x in v` for a string `x` (`'choices' in response_data`):
key test on dicts, element test on lists, substring test on strings,
`TypeError` otherwise.  Errors carry the exception's `str`. -/
def pyContains (v : PyVal) (x : String) : Except String Bool :=
  match v with
  | .dict kvs => .ok (dictGet kvs x).isSome
  | .list xs => .ok (xs.contains (.str x))
  | .str s => .ok (strContainsB s x)
  | .int _ => .error "argument of type \x27int\x27 is not iterable"
  | .bool _ => .error "argument of type \x27bool\x27 is not iterable"
  | .null => .error "argument of type \x27NoneType\x27 is not iterable"

/-- Python `len(v)`: length of lists, strings and dicts, `TypeError`
otherwise. -/
def pyLen (v : PyVal) : Except String Nat :=
  match v with
  | .list xs => .ok xs.length
  | .str s => .ok s.length
  | .dict kvs => .ok kvs.length
  | .int _ => .error "object of type \x27int\x27 has no len()"
  | .bool _ => .error "object of type \x27bool\x27 has no len()"
  | .null => .error "object of type \x27NoneType\x27 has no len()"

/-- Python `v[k]` for a string key `k`: dict lookup (`KeyError` when
absent), `TypeError` on the other types. -/
def pyGetItem (v : PyVal) (k : String) : Except String PyVal :=
  match v with
  | .dict kvs =>
    match dictGet kvs k with
    | some x => .ok x
    | none => .error ("\x27" ++ k ++ "\x27")
  | .list _ => .error "list indices must be integers or slices, not str"
  | .str _ => .error "string indices must be integers"
  | .int _ => .error "\x27int\x27 object is not subscriptable"
  | .bool _ => .error "\x27bool\x27 object is not subscriptable"
  | .null => .error "\x27NoneType\x27 object is not subscriptable"

/-- Python `v[0]`: first element of a list (`IndexError` when empty),
first character of a string, `KeyError`/`TypeError` on the others. -/
def pyIndexZero (v : PyVal) : Except String PyVal :=
  match v with
  | .list (x :: _) => .ok x
  | .list [] => .error "list index out of range"
  | .str s =>
    match s.toList with
    | c :: _ => .ok (.str (List.asString [c]))
    | [] => .error "string index out of range"
  | .dict _ => .error "0"
  | .int _ => .error "\x27int\x27 object is not subscriptable"
  | .bool _ => .error "\x27bool\x27 object is not subscriptable"
  | .null => .error "\x27NoneType\x27 object is not subscriptable"

/-- The untyped Python expression
`response_data['choices'][0]['message']['content']` is returned as the
function's result; the embedding's return type is `String`, so a
non-string content value is rendered with `pyRepr` (Python would hand
the raw object onwards). -/
def pyValAsText (v : PyVal) : String :=
  match v with
  | .str s => s
  | v => pyRepr v

/-! ## Model clients (`gemini_agent`, `groq_agent`) -/

/-- Outcome of the SDK call
`self.gemini_client.models.generate_content(...)` followed by reading
`response.text`: either the produced text, or a raised exception
carrying Python's `str(e)`. -/
inductive GeminiCall where
  | text (s : String)
  | exn (msg : String)

/-- Outcome of `requests.post(...)` followed by `response.json()`:
either the parsed JSON body, or a raised exception (transport failure,
non-JSON body, ...) carrying Python's `str(e)`. -/
inductive GroqCall where
  | body (v : PyVal)
  | exn (msg : String)

/-- `AIAgentSystem.gemini_agent`: returns the response text; any
exception is caught and rendered as `"Gemini Agent Error: " + str(e)`.
The function is total — no exception escapes. -/
def gemini_agent (call : GeminiCall) : String :=
  match call with
  | .text s => s
  | .exn e => "Gemini Agent Error: " ++ e

/-- `AIAgentSystem.groq_agent`: on a parsed body, checks
`'choices' in response_data and len(response_data['choices']) > 0`
(short-circuit `and`); on success extracts
`response_data['choices'][0]['message']['content']`; otherwise returns
the unexpected-format error string embedding `repr(response_data)`.
Any exception (from the call itself or from the inner subscript
operations) is caught and rendered as `"Groq Agent Error: " + str(e)`.
The function is total — no exception escapes. -/
def groq_agent (call : GroqCall) : String :=
  match call with
  | .exn e => "Groq Agent Error: " ++ e
  | .body v =>
    let attempt : Except String String := do
      let present ← pyContains v "choices"
      let cond ←
        if present then do
          let cv ← pyGetItem v "choices"
          let n ← pyLen cv
          pure (decide (0 < n))
        else
          pure false
      if cond then
        let cv ← pyGetItem v "choices"
        let c0 ← pyIndexZero cv
        let msg ← pyGetItem c0 "message"
        let content ← pyGetItem msg "content"
        pure (pyValAsText content)
      else
        pure ("Groq Agent Error: Unexpected response format - " ++ pyRepr v)
    match attempt with
    | .ok s => s
    | .error e => "Groq Agent Error: " ++ e

/-! ## Python `int(...)` parsing and `str.strip()` -/

/-- Is `c` one of Python's ASCII whitespace characters (the characters
removed by `str.strip()`; the model is restricted to ASCII)? -/
def isPySpace (c : Char) : Bool :=
  c == ' ' || c == '\t' || c == '\n' || c == '\r' || c == '\x0b' || c == '\x0c'

/-- Python `s.strip()` over ASCII whitespace. -/
def pyStrip (s : String) : String :=
  List.asString (((s.toList.dropWhile isPySpace).reverse.dropWhile isPySpace).reverse)

/-- Digit run of a Python integer literal after the first digit:
digits, with single underscores allowed between digits. -/
def pyDigitsRest (acc : Nat) : List Char → Option Nat
  | [] => some acc
  | '_' :: c :: cs =>
    if c.isDigit then pyDigitsRest (acc * 10 + (c.toNat - 48)) cs else none
  | '_' :: [] => none
  | c :: cs =>
    if c.isDigit then pyDigitsRest (acc * 10 + (c.toNat - 48)) cs else none

/-- A nonempty decimal digit run (underscores between digits allowed),
as accepted by Python `int`. -/
def pyDigits : List Char → Option Nat
  | [] => none
  | '_' :: _ => none
  | c :: cs => if c.isDigit then pyDigitsRest (c.toNat - 48) cs else none

/-- Python `int(s)` on an already-stripped string: optional sign
followed by a digit run; `none` models the raised `ValueError`. -/
def pyParseInt (s : String) : Option Int :=
  match s.toList with
  | '+' :: cs => (pyDigits cs).map (fun n => (n : Int))
  | '-' :: cs => (pyDigits cs).map (fun n => -(n : Int))
  | cs => (pyDigits cs).map (fun n => (n : Int))

/-! ## Turn planner (`determine_conversation_length`) -/

/-- The f-string prompt built by `determine_conversation_length`. -/
def conversation_length_prompt (task : String) : String :=
  "\n        You are tasked with determining the optimal number of conversation turns needed for two AI agents \n        to solve this task: \"" ++ task ++
  "\"\n        \n        Consider:\n        1. Task complexity (simple tasks need fewer turns)\n        2. Need for brainstorming (creative tasks may need more turns)\n        3. Need for refinement (tasks requiring precision may need more turns)\n        \n        Return only a number between 3 and 10 representing the optimal number of turns.\n        "

/-- The `try`/`except` tail of `determine_conversation_length`:
`turns = int(response.strip()); return max(3, min(10, turns))`, with
the bare `except:` returning the default `5`. -/
def conversation_length_of_response (response : String) : Int :=
  match pyParseInt (pyStrip response) with
  | some turns => max 3 (min 10 turns)
  | none => 5

/-- `AIAgentSystem.determine_conversation_length`: builds the planning
prompt, invokes `gemini_agent` through the Client A oracle `gO`, and
parses/clamps the response. -/
def determine_conversation_length (gO : String → GeminiCall) (task : String) : Int :=
  conversation_length_of_response (gemini_agent (gO (conversation_length_prompt task)))

/-! ## Prompt builder (`generate_initial_prompts`, `generate_follow_up_prompts`) -/

/-- `AIAgentSystem.generate_initial_prompts`: the two turn-1 prompts,
built from the task alone (the method takes no other data). -/
def generate_initial_prompts (task : String) : String × String :=
  ("\n        You are Agent 1 (Gemini 2.5 Pro), working collaboratively with Agent 2 (Deepseek Llama 70B) on this task:\n        \"" ++ task ++
   "\"\n        \n        Your specialties are:\n        - Creative thinking and ideation\n        - Structured planning\n        - Considering multiple perspectives\n        \n        Begin by introducing yourself to Agent 2 and outline your initial thoughts on how to approach this task.\n        Focus on the big picture and strategic elements.\n        ",
   "\n        You are Agent 2 (Deepseek Llama 70B), working collaboratively with Agent 1 (Gemini 2.5 Pro) on this task:\n        \"" ++ task ++
   "\"\n        \n        Your specialties are:\n        - Detailed analysis and implementation\n        - Technical precision\n        - Pragmatic refinement of ideas\n        \n        Wait for Agent 1\x27s initial thoughts, then respond with your specialized perspective.\n        Feel free to build on their ideas while adding your technical insights.\n        ")

/-- One rendered transcript line:
`f"{'Agent 1 (Gemini)' if i%2==0 else 'Agent 2 (Deepseek)'}: {msg}"`. -/
def historyLine (i : Nat) (msg : String) : String :=
  (if i % 2 = 0 then "Agent 1 (Gemini)" else "Agent 2 (Deepseek)") ++ ": " ++ msg

/-- The `history_text` expression of `generate_follow_up_prompts`:
`"\n\n".join(labelled lines over enumerate(conversation_history))`. -/
def history_text_follow_up (conversation_history : List String) : String :=
  String.intercalate "\n\n" (conversation_history.enum.map (fun p => historyLine p.1 p.2))

/-- The `history_text` expression of `generate_summary` — textually
identical in the source to the one in `generate_follow_up_prompts`,
embedded separately to compare the two code sites. -/
def history_text_summary (conversation : List String) : String :=
  String.intercalate "\n\n" (conversation.enum.map (fun p => historyLine p.1 p.2))

/-- The conclusion instruction in Agent 1's follow-up prompt. -/
def conclusion_text_gemini : String :=
  "As this is the final turn, work with Agent 2 to conclude and present a final solution or recommendation."

/-- The conclusion instruction in Agent 2's follow-up prompt. -/
def conclusion_text_groq : String :=
  "As this is the final turn, work with Agent 1 to conclude and present a final solution or recommendation."

/-- The continuation instruction, shared by both follow-up prompts. -/
def continuation_text : String :=
  "Continue the collaborative discussion, building on what has been shared so far."

/-- `AIAgentSystem.generate_follow_up_prompts`: the two follow-up
prompts for `turn_number` of `max_turns`, embedding the rendered
history and the conditional instruction
(`... if turn_number == max_turns else ...`). -/
def generate_follow_up_prompts (conversation_history : List String)
    (turn_number max_turns : Int) (task : String) : String × String :=
  let history_text := history_text_follow_up conversation_history
  ("\n        You are Agent 1 (Gemini 2.5 Pro). Review the conversation so far about the task: \"" ++ task ++
   "\"\n        \n        Conversation history:\n        " ++ history_text ++
   "\n        \n        This is turn " ++ toString turn_number ++ " of " ++ toString max_turns ++
   ".\n        \n        " ++
   (if turn_number = max_turns then conclusion_text_gemini else continuation_text) ++
   "\n        \n        Be concise but insightful. Advance the solution forward meaningfully.\n        ",
   "\n        You are Agent 2 (Deepseek Llama 70B). Review the conversation so far about the task: \"" ++ task ++
   "\"\n        \n        Conversation history:\n        " ++ history_text ++
   "\n        \n        This is turn " ++ toString turn_number ++ " of " ++ toString max_turns ++
   ".\n        \n        " ++
   (if turn_number = max_turns then conclusion_text_groq else continuation_text) ++
   "\n        \n        Be concise but insightful. Advance the solution forward meaningfully.\n        ")

/-- The spec's Prompt Builder interface — a function of (task,
transcript, turn index, max turns) — as dispatched by `collaborate`:
turn 1 uses `generate_initial_prompts` (which ignores the transcript),
later turns use `generate_follow_up_prompts`. -/
def turn_prompts (task : String) (transcript : List String)
    (turn_number max_turns : Int) : String × String :=
  if turn_number = 1 then generate_initial_prompts task
  else generate_follow_up_prompts transcript turn_number max_turns task

/-! ## Summarizer (`generate_summary`) -/

/-- The f-string `summary_prompt` of `generate_summary`. -/
def summary_prompt (task : String) (conversation : List String) : String :=
  "\n        Review this conversation between two AI agents collaborating on the task: \"" ++ task ++
  "\"\n        \n        Full conversation:\n        " ++ history_text_summary conversation ++
  "\n        \n        Provide:\n        1. A concise summary of the key insights and ideas generated\n        2. The final solution or approach recommended\n        3. How the collaboration between agents enhanced the result\n        \n        Format your response as a structured final report.\n        "

/-- `AIAgentSystem.generate_summary`: builds the summary prompt and
invokes `gemini_agent` through the Client A oracle. -/
def generate_summary (gO : String → GeminiCall) (task : String)
    (conversation : List String) : String :=
  gemini_agent (gO (summary_prompt task conversation))

/-! ## Conversation loop and `collaborate` -/

/-- The value of `self.conversation` set by `AIAgentSystem.__init__`. -/
def initConversation : List String := []

/-- The record returned by `collaborate` (and serialized by
`save_results`). -/
structure CollaborationResult where
  task : String
  conversation_turns : Int
  conversation : List String
  summary : String

/-- Python `range(a, b)` over integers, as a list. -/
def pyRange (a b : Int) : List Int :=
  (List.range (b - a).toNat).map (fun i => a + Int.ofNat i)

/-- The `for turn in range(2, max_turns + 1)` body of `collaborate`:
build follow-up prompts from the current transcript, invoke Client A
and append, invoke Client B and append. -/
def conversationLoop (gO : String → GeminiCall) (qO : String → GroqCall)
    (task : String) (max_turns : Int) :
    List Int → List String → List String
  | [], conversation => conversation
  | turn :: rest, conversation =>
    let prompts := generate_follow_up_prompts conversation turn max_turns task
    let gemini_response := gemini_agent (gO prompts.1)
    let conversation := conversation ++ [gemini_response]
    let groq_response := groq_agent (qO prompts.2)
    conversationLoop gO qO task max_turns rest (conversation ++ [groq_response])

/-- `AIAgentSystem.collaborate`, with `self.conversation` threaded
explicitly: `conversation₀` is the transcript already on the instance
when the method is entered (`[]` on a fresh instance).  The `print`
calls are I/O only and are not modelled.  The returned record's
`conversation` field is the final transcript (the source returns
`self.conversation` itself). -/
def collaborate (gO : String → GeminiCall) (qO : String → GroqCall)
    (task : String) (conversation₀ : List String) : CollaborationResult :=
  let max_turns := determine_conversation_length gO task
  let prompts := generate_initial_prompts task
  let gemini_response := gemini_agent (gO prompts.1)
  let conversation₁ := conversation₀ ++ [gemini_response]
  let groq_response := groq_agent (qO (prompts.2 ++ "\n\nAgent 1 said: " ++ gemini_response))
  let conversation₂ := conversation₁ ++ [groq_response]
  let conversationF :=
    conversationLoop gO qO task max_turns (pyRange 2 (max_turns + 1)) conversation₂
  let summary := generate_summary gO task conversationF
  { task := task
    conversation_turns := max_turns
    conversation := conversationF
    summary := summary }

/-! ## Persistence (`save_results`) -/

/-- The JSON value tree that `save_results` hands to
`json.dump(results, f, indent=2)`: the dict literal built at the end
of `collaborate`. -/
def resultsJson (r : CollaborationResult) : PyVal :=
  .dict [("task", .str r.task),
         ("conversation_turns", .int r.conversation_turns),
         ("conversation", .list (r.conversation.map .str)),
         ("summary", .str r.summary)]

/-- Decode a JSON string element of the `conversation` array. -/
def jsonAsString : PyVal → Option String
  | .str s => some s
  | _ => none

/-- Decode a JSON array of strings, failing on any non-string
element. -/
def decodeStringList : List PyVal → Option (List String)
  | [] => some []
  | v :: vs => do
    let s ← jsonAsString v
    let rest ← decodeStringList vs
    some (s :: rest)

/-- Reading a saved results file back (the spec's round-trip reader):
`json.load` yields the same value tree `json.dump` wrote (the text
layer is Python's `json` standard library, external to this
repository), and the four fields are extracted from it. -/
def resultsOfJson (v : PyVal) : Option CollaborationResult :=
  match v with
  | .dict kvs => do
    let t ← dictGet kvs "task"
    let task ← jsonAsString t
    let n ← dictGet kvs "conversation_turns"
    let conversation_turns ←
      match n with
      | .int k => some k
      | _ => none
    let c ← dictGet kvs "conversation"
    let conversation ←
      match c with
      | .list xs => decodeStringList xs
      | _ => none
    let s ← dictGet kvs "summary"
    let summary ← jsonAsString s
    some { task := task
           conversation_turns := conversation_turns
           conversation := conversation
           summary := summary }
  | _ => none

/-! ## General lemmas -/

theorem strAppend_toList (a b : String) :
    (a ++ b).toList = a.toList ++ b.toList := by
  cases a; cases b; rfl

theorem asString_toList (s : String) : List.asString s.toList = s := by
  cases s; rfl

theorem asString_append (l₁ l₂ : List Char) :
    List.asString (l₁ ++ l₂) = List.asString l₁ ++ List.asString l₂ := rfl

theorem strContains_head (pat tail : String) : StrContains (pat ++ tail) pat :=
  ⟨"", tail, (String.empty_append _).symm⟩

theorem strContains_last (x pat : String) : StrContains (x ++ pat) pat :=
  ⟨x, "", by rw [String.append_empty]⟩

theorem strContains_append_left (x : String) {s pat : String}
    (h : StrContains s pat) : StrContains (x ++ s) pat := by
  obtain ⟨p, q, rfl⟩ := h
  exact ⟨x ++ p, q, (String.append_assoc x p (pat ++ q)).symm⟩

theorem strContains_append_right (y : String) {s pat : String}
    (h : StrContains s pat) : StrContains (s ++ y) pat := by
  obtain ⟨p, q, rfl⟩ := h
  exact ⟨p, q ++ y, by rw [String.append_assoc, String.append_assoc]⟩

theorem listStarts_eq_append {pat s : List Char} (h : listStarts pat s = true) :
    ∃ rest, s = pat ++ rest := by
  induction pat generalizing s with
  | nil => exact ⟨s, rfl⟩
  | cons c ps ih =>
    cases s with
    | nil => simp [listStarts] at h
    | cons d ds =>
      simp only [listStarts, Bool.and_eq_true, beq_iff_eq] at h
      obtain ⟨rest, hrest⟩ := ih h.2
      exact ⟨rest, by rw [hrest, h.1]; rfl⟩

theorem listHas_split {pat s : List Char} (h : listHas pat s = true) :
    ∃ pre rest, s = pre ++ (pat ++ rest) := by
  induction s with
  | nil =>
    simp only [listHas] at h
    obtain ⟨rest, hrest⟩ := listStarts_eq_append h
    exact ⟨[], rest, by simpa using hrest⟩
  | cons d ds ih =>
    simp only [listHas, Bool.or_eq_true] at h
    rcases h with h | h
    · obtain ⟨rest, hrest⟩ := listStarts_eq_append h
      exact ⟨[], rest, by simpa using hrest⟩
    · obtain ⟨pre, rest, hsplit⟩ := ih h
      exact ⟨d :: pre, rest, by rw [hsplit]; rfl⟩

/-- Bridge from the executable substring test to the containment
predicate: a `decide`-checked `strContainsB` yields `StrContains`. -/
theorem strContains_of_strContainsB {s pat : String}
    (h : strContainsB s pat = true) : StrContains s pat := by
  obtain ⟨pre, rest, hsplit⟩ := listHas_split h
  refine ⟨List.asString pre, List.asString rest, ?_⟩
  have : List.asString s.toList =
      List.asString (pre ++ (pat.toList ++ rest)) := by rw [hsplit]
  rw [asString_toList] at this
  rw [this, asString_append, asString_append, asString_toList]

theorem conversation_length_of_response_bounds (response : String) :
    3 ≤ conversation_length_of_response response ∧
      conversation_length_of_response response ≤ 10 := by
  unfold conversation_length_of_response
  cases pyParseInt (pyStrip response) with
  | none => norm_num
  | some t =>
    exact ⟨le_max_left 3 (min 10 t), max_le (by norm_num) (min_le_left 10 t)⟩

theorem conversationLoop_length (gO : String → GeminiCall)
    (qO : String → GroqCall) (task : String) (max_turns : Int) :
    ∀ (ts : List Int) (conv : List String),
      (conversationLoop gO qO task max_turns ts conv).length
        = conv.length + 2 * ts.length := by
  intro ts
  induction ts with
  | nil => intro conv; simp [conversationLoop]
  | cons t rest ih =>
    intro conv
    simp only [conversationLoop]
    rw [ih]
    simp
    ring

theorem conversationLoop_mem (gO : String → GeminiCall)
    (qO : String → GroqCall) (task : String) (max_turns : Int) (x : String) :
    ∀ (ts : List Int) (conv : List String),
      x ∈ conv → x ∈ conversationLoop gO qO task max_turns ts conv := by
  intro ts
  induction ts with
  | nil => intro conv h; simpa [conversationLoop] using h
  | cons t rest ih =>
    intro conv h
    simp only [conversationLoop]
    exact ih _ (by simp [h])

theorem conversationLoop_extends (gO : String → GeminiCall)
    (qO : String → GroqCall) (task : String) (max_turns : Int) :
    ∀ (ts : List Int) (conv : List String),
      ∃ tail, conversationLoop gO qO task max_turns ts conv = conv ++ tail := by
  intro ts
  induction ts with
  | nil => intro conv; exact ⟨[], by simp [conversationLoop]⟩
  | cons t rest ih =>
    intro conv
    simp only [conversationLoop]
    obtain ⟨tl, h⟩ := ih
      (conv ++ [gemini_agent (gO (generate_follow_up_prompts conv t max_turns task).1)]
            ++ [groq_agent (qO (generate_follow_up_prompts conv t max_turns task).2)])
    refine ⟨[gemini_agent (gO (generate_follow_up_prompts conv t max_turns task).1)]
            ++ ([groq_agent (qO (generate_follow_up_prompts conv t max_turns task).2)] ++ tl), ?_⟩
    rw [h]
    simp

theorem pyRange_length (a b : Int) : (pyRange a b).length = (b - a).toNat := by
  unfold pyRange
  rw [List.length_map, List.length_range]

theorem collaborate_turns (gO : String → GeminiCall) (qO : String → GroqCall)
    (task : String) (conversation₀ : List String) :
    (collaborate gO qO task conversation₀).conversation_turns
      = determine_conversation_length gO task := rfl

theorem determine_conversation_length_bounds (gO : String → GeminiCall)
    (task : String) :
    3 ≤ determine_conversation_length gO task ∧
      determine_conversation_length gO task ≤ 10 :=
  conversation_length_of_response_bounds _

theorem collaborate_conversation_length (gO : String → GeminiCall)
    (qO : String → GroqCall) (task : String) (conversation₀ : List String) :
    (collaborate gO qO task conversation₀).conversation.length
      = conversation₀.length
        + 2 + 2 * (determine_conversation_length gO task - 1).toNat := by
  have h := conversationLoop_length gO qO task
    (determine_conversation_length gO task)
    (pyRange 2 (determine_conversation_length gO task + 1))
  dsimp only [collaborate]
  rw [h, pyRange_length]
  simp only [List.length_append, List.length_cons, List.length_nil]
  omega

theorem conversationLoop_alternating (gO : String → GeminiCall)
    (qO : String → GroqCall) (task : String) (max_turns : Int) :
    ∀ (ts : List Int) (conv : List String),
      ∃ tail,
        conversationLoop gO qO task max_turns ts conv = conv ++ tail
        ∧ tail.length = 2 * ts.length
        ∧ (∀ j, j < tail.length →
            (j % 2 = 0 → ∃ p, tail[j]? = some (gemini_agent (gO p)))
            ∧ (j % 2 = 1 → ∃ p, tail[j]? = some (groq_agent (qO p)))) := by
  intro ts
  induction ts with
  | nil =>
    intro conv
    refine ⟨[], by simp [conversationLoop], by simp, ?_⟩
    intro j hj
    simp at hj
  | cons t rest ih =>
    intro conv
    simp only [conversationLoop]
    obtain ⟨tl, htl, hlen, hprop⟩ := ih
      (conv ++ [gemini_agent (gO (generate_follow_up_prompts conv t max_turns task).1)]
            ++ [groq_agent (qO (generate_follow_up_prompts conv t max_turns task).2)])
    refine ⟨gemini_agent (gO (generate_follow_up_prompts conv t max_turns task).1)
        :: groq_agent (qO (generate_follow_up_prompts conv t max_turns task).2) :: tl,
      ?_, ?_, ?_⟩
    · rw [htl]
      simp
    · simp only [List.length_cons, hlen]
      omega
    · intro j hj
      rcases j with _ | _ | j
      · exact ⟨fun _ => ⟨(generate_follow_up_prompts conv t max_turns task).1, by simp⟩,
          fun hodd => absurd hodd (by decide)⟩
      · exact ⟨fun heven => absurd heven (by decide),
          fun _ => ⟨(generate_follow_up_prompts conv t max_turns task).2, by simp⟩⟩
      · have hj' : j < tl.length := by
          simp only [List.length_cons] at hj
          omega
        have hpar := hprop j hj'
        constructor
        · intro heven
          obtain ⟨p, hp⟩ := hpar.1 (by omega)
          exact ⟨p, by simpa [List.getElem?_cons_succ] using hp⟩
        · intro hodd
          obtain ⟨p, hp⟩ := hpar.2 (by omega)
          exact ⟨p, by simpa [List.getElem?_cons_succ] using hp⟩

theorem collaborate_alternating (gO : String → GeminiCall)
    (qO : String → GroqCall) (task : String) (conversation₀ : List String) :
    ∃ tail,
      (collaborate gO qO task conversation₀).conversation = conversation₀ ++ tail
      ∧ (tail.length : Int) = 2 * determine_conversation_length gO task
      ∧ (∀ j, j < tail.length →
          (j % 2 = 0 → ∃ p, tail[j]? = some (gemini_agent (gO p)))
          ∧ (j % 2 = 1 → ∃ p, tail[j]? = some (groq_agent (qO p)))) := by
  dsimp only [collaborate]
  obtain ⟨tl, htl, hlen, hprop⟩ := conversationLoop_alternating gO qO task
    (determine_conversation_length gO task)
    (pyRange 2 (determine_conversation_length gO task + 1))
    (conversation₀
      ++ [gemini_agent (gO (generate_initial_prompts task).1)]
      ++ [groq_agent (qO ((generate_initial_prompts task).2 ++ "\n\nAgent 1 said: "
            ++ gemini_agent (gO (generate_initial_prompts task).1)))])
  refine ⟨gemini_agent (gO (generate_initial_prompts task).1)
      :: groq_agent (qO ((generate_initial_prompts task).2 ++ "\n\nAgent 1 said: "
            ++ gemini_agent (gO (generate_initial_prompts task).1))) :: tl,
    ?_, ?_, ?_⟩
  · rw [htl]
    simp
  · have hb := determine_conversation_length_bounds gO task
    rw [pyRange_length] at hlen
    simp only [List.length_cons, hlen]
    omega
  · intro j hj
    rcases j with _ | _ | j
    · exact ⟨fun _ => ⟨(generate_initial_prompts task).1, by simp⟩,
        fun hodd => absurd hodd (by decide)⟩
    · exact ⟨fun heven => absurd heven (by decide),
        fun _ => ⟨(generate_initial_prompts task).2 ++ "\n\nAgent 1 said: "
            ++ gemini_agent (gO (generate_initial_prompts task).1), by simp⟩⟩
    · have hj' : j < tl.length := by
        simp only [List.length_cons] at hj
        omega
      have hpar := hprop j hj'
      constructor
      · intro heven
        obtain ⟨p, hp⟩ := hpar.1 (by omega)
        exact ⟨p, by simpa [List.getElem?_cons_succ] using hp⟩
      · intro hodd
        obtain ⟨p, hp⟩ := hpar.2 (by omega)
        exact ⟨p, by simpa [List.getElem?_cons_succ] using hp⟩

/-! ## Claim theorems -/

/-- C1: for every pair of client oracles and every task, after the
conversation loop of `collaborate` completes on a fresh run (transcript
initially empty), the transcript contains exactly
`2 + 2*(N-1) = 2N` entries for the planned TurnBudget
`N` (the result's `conversation_turns`), an even number: two entries
appended in the initial exchange and two per turn index from 2 to N. -/
theorem collaborate_fresh_transcript_length (gO : String → GeminiCall)
    (qO : String → GroqCall) (task : String) :
    ((collaborate gO qO task []).conversation.length : Int)
        = 2 + 2 * ((collaborate gO qO task []).conversation_turns - 1)
    ∧ ((collaborate gO qO task []).conversation.length : Int)
        = 2 * (collaborate gO qO task []).conversation_turns
    ∧ 2 ∣ (collaborate gO qO task []).conversation.length := by
  have hlen := collaborate_conversation_length gO qO task []
  have hb := determine_conversation_length_bounds gO task
  have ht := collaborate_turns gO qO task []
  rw [ht]
  simp only [List.length_nil] at hlen
  refine ⟨?_, ?_, ?_⟩ <;> omega

/-- C2: the Turn Planner's result always lies in [3,10]; a non-numeric
response falls back to the fixed default 5; numeric responses outside
[3,10] are clamped to the nearest bound ("15" yields 10, "1" yields 3),
never rejected. -/
theorem turn_planner_range_and_clamp :
    (∀ (gO : String → GeminiCall) (task : String),
        3 ≤ determine_conversation_length gO task ∧
          determine_conversation_length gO task ≤ 10) ∧
    (∀ response, pyParseInt (pyStrip response) = none →
        conversation_length_of_response response = 5) ∧
    conversation_length_of_response "15" = 10 ∧
    conversation_length_of_response "1" = 3 := by
  refine ⟨fun gO task => determine_conversation_length_bounds gO task,
    ?_, by decide, by decide⟩
  intro response h
  unfold conversation_length_of_response
  rw [h]

/-- Witness for C2: a concrete non-numeric planner response (an error
string from Client A) falls back to the default 5. -/
theorem turn_planner_range_and_clamp_witness :
    conversation_length_of_response "Gemini Agent Error: boom" = 5 :=
  turn_planner_range_and_clamp.2.1 "Gemini Agent Error: boom" (by decide)

/-- C3 counterexample: the out-of-range numeric response "15" is
clamped to 10, not mapped to the single fixed default 5 — out-of-range
numeric responses do not yield the same result as non-numeric ones. -/
theorem planner_out_of_range_not_default :
    conversation_length_of_response "15" = 10 ∧
      conversation_length_of_response "15" ≠ 5 := by
  decide

/-- C3 (amended): a non-numeric planner response yields the fixed
default 5, with no error surfaced (the embedded function is total); a
numeric response outside [3,10] is instead clamped to the nearest
bound, not mapped to the default. -/
theorem planner_parse_failure_default :
    (∀ response, pyParseInt (pyStrip response) = none →
        conversation_length_of_response response = 5) ∧
    (∀ response t, pyParseInt (pyStrip response) = some t → 10 < t →
        conversation_length_of_response response = 10) ∧
    (∀ response t, pyParseInt (pyStrip response) = some t → t < 3 →
        conversation_length_of_response response = 3) := by
  refine ⟨?_, ?_, ?_⟩
  · intro r h
    unfold conversation_length_of_response
    rw [h]
  · intro r t h h10
    unfold conversation_length_of_response
    rw [h]
    dsimp only
    rw [min_eq_left h10.le]
    exact max_eq_right (by norm_num)
  · intro r t h h3
    unfold conversation_length_of_response
    rw [h]
    dsimp only
    rw [min_eq_right (by omega : t ≤ (10:Int))]
    exact max_eq_left (by omega)

/-- Witness for C3 (amended): the concrete response "  15  " parses to
15 after stripping and is clamped to 10. -/
theorem planner_parse_failure_default_witness :
    conversation_length_of_response "  15  " = 10 :=
  planner_parse_failure_default.2.1 "  15  " 15 (by decide) (by decide)

/-- C4: when the underlying Client A call raises, `gemini_agent`
returns exactly the fixed prefix "Gemini Agent Error: " followed by the
stringified exception; the embedded function is total, so no exception
propagates past its boundary. -/
theorem gemini_agent_error_contract (e : String) :
    gemini_agent (GeminiCall.exn e) = "Gemini Agent Error: " ++ e ∧
      StrBegins (gemini_agent (GeminiCall.exn e)) "Gemini Agent Error: " :=
  ⟨rfl, ⟨e, rfl⟩⟩

/-- C5: for every Client B response body (a JSON object) whose
`choices` entry is an empty array or is missing altogether,
`groq_agent` returns the unexpected-format error string embedding
`repr` of the raw response for diagnosis — the embedded function is
total, so nothing is raised — and within `collaborate` that returned
string is appended verbatim as a transcript entry. -/
theorem groq_agent_missing_or_empty_choices (kvs : List (String × PyVal))
    (h : dictGet kvs "choices" = none
        ∨ dictGet kvs "choices" = some (PyVal.list [])) :
    groq_agent (GroqCall.body (PyVal.dict kvs))
        = "Groq Agent Error: Unexpected response format - "
            ++ pyRepr (PyVal.dict kvs)
    ∧ StrContains (groq_agent (GroqCall.body (PyVal.dict kvs)))
        (pyRepr (PyVal.dict kvs))
    ∧ ∀ (gO : String → GeminiCall) (task : String),
        groq_agent (GroqCall.body (PyVal.dict kvs))
          ∈ (collaborate gO (fun _ => GroqCall.body (PyVal.dict kvs))
              task []).conversation := by
  have heq : groq_agent (GroqCall.body (PyVal.dict kvs))
      = "Groq Agent Error: Unexpected response format - "
          ++ pyRepr (PyVal.dict kvs) := by
    rcases h with h | h <;>
      (simp only [groq_agent, pyContains, pyGetItem, pyLen, h,
        Option.isSome_none, Option.isSome_some]; rfl)
  refine ⟨heq, ?_, ?_⟩
  · rw [heq]
    exact strContains_last _ _
  · intro gO task
    dsimp only [collaborate]
    apply conversationLoop_mem
    simp

/-- Witness for C5: the concrete bodies `{"choices": []}` (empty
choices array) and `{}` (missing choices key) both produce the
unexpected-format error string embedding the body. -/
theorem groq_agent_missing_or_empty_choices_witness :
    groq_agent (GroqCall.body (PyVal.dict [("choices", PyVal.list [])]))
        = "Groq Agent Error: Unexpected response format - \x7b\x27choices\x27: []\x7d"
    ∧ groq_agent (GroqCall.body (PyVal.dict []))
        = "Groq Agent Error: Unexpected response format - \x7b\x7d" :=
  ⟨((groq_agent_missing_or_empty_choices [("choices", PyVal.list [])]
      (Or.inr rfl)).1).trans (by decide),
   ((groq_agent_missing_or_empty_choices [] (Or.inl rfl)).1).trans (by decide)⟩

/-- C6 counterexample: containment of the conclusion-oriented
instruction text does not hold "exactly when" `turn_number ==
max_turns` — at turn 2 of 3 (not the final turn), a task string that
itself consists of the conclusion phrasing makes the Agent 1 follow-up
prompt contain the conclusion text even though the continuation
instruction was selected. -/
theorem follow_up_conclusion_not_iff :
    (2 : Int) ≠ 3
    ∧ StrContains (generate_follow_up_prompts [] 2 3 conclusion_text_gemini).1
        conclusion_text_gemini := by
  constructor
  · decide
  · exact strContains_of_strContainsB (by decide)

/-- C6 (amended): for every transcript, task and turn index
`2 ≤ turn_number ≤ max_turns`, the instruction segment selected in
both follow-up prompts is the conclusion-oriented text exactly when
`turn_number = max_turns`; consequently on the final turn both prompts
contain their conclusion-oriented instruction text, and on every
earlier turn both contain the continuation-oriented instruction text
(checked by substring containment).  The converse containment
direction fails for adversarial task/history text (see the
counterexample), so "exactly when" only holds at the level of the
selected segment. -/
theorem follow_up_instruction_by_turn
    (conv : List String) (turn_number max_turns : Int) (task : String)
    (_h2 : 2 ≤ turn_number) (_hle : turn_number ≤ max_turns) :
    ((if turn_number = max_turns then conclusion_text_gemini else continuation_text)
        = conclusion_text_gemini ↔ turn_number = max_turns)
    ∧ (turn_number = max_turns →
        StrContains (generate_follow_up_prompts conv turn_number max_turns task).1
          conclusion_text_gemini
        ∧ StrContains (generate_follow_up_prompts conv turn_number max_turns task).2
          conclusion_text_groq)
    ∧ (turn_number < max_turns →
        StrContains (generate_follow_up_prompts conv turn_number max_turns task).1
          continuation_text
        ∧ StrContains (generate_follow_up_prompts conv turn_number max_turns task).2
          continuation_text) := by
  refine ⟨?_, ?_, ?_⟩
  · by_cases h : turn_number = max_turns
    · simp [h]
    · rw [if_neg h]
      exact ⟨fun heq => absurd heq (by decide), fun heq => absurd heq h⟩
  · intro h
    constructor
    · dsimp only [generate_follow_up_prompts]
      rw [if_pos h]
      repeat first
        | exact strContains_last _ _
        | apply strContains_append_right
    · dsimp only [generate_follow_up_prompts]
      rw [if_pos h]
      repeat first
        | exact strContains_last _ _
        | apply strContains_append_right
  · intro hlt
    have h : turn_number ≠ max_turns := ne_of_lt hlt
    constructor
    · dsimp only [generate_follow_up_prompts]
      rw [if_neg h]
      repeat first
        | exact strContains_last _ _
        | apply strContains_append_right
    · dsimp only [generate_follow_up_prompts]
      rw [if_neg h]
      repeat first
        | exact strContains_last _ _
        | apply strContains_append_right

/-- Witness for C6 (amended), at turn 2 of 3 with an empty transcript:
the continuation instruction is contained in the Agent 1 prompt. -/
theorem follow_up_instruction_by_turn_witness :
    StrContains (generate_follow_up_prompts [] 2 3 "t").1 continuation_text :=
  ((follow_up_instruction_by_turn [] 2 3 "t" (by decide) (by decide)).2.2
    (by decide)).1

set_option maxRecDepth 40000 in
set_option maxHeartbeats 1000000 in
/-- C7 counterexample: Agent 2's initial prompt does not instruct that
agent to introduce itself — no form of the word "introduce" occurs in
it (it instead says to wait for Agent 1 and respond); so the claim
that each turn-1 prompt instructs its agent to introduce itself fails
for the Agent 2 prompt. -/
theorem initial_groq_prompt_no_introduction :
    strContainsB (generate_initial_prompts "x").2 "introduc" = false := by
  decide

set_option maxRecDepth 40000 in
set_option maxHeartbeats 1000000 in
/-- C7 (amended): the two turn-1 prompts are pure functions of the
task alone — the turn-1 case of the prompt-building dispatch ignores
the transcript and the turn budget entirely — and they embed no
transcript-history text; Agent 1's prompt instructs it to introduce
itself and outline an opening approach, while Agent 2's prompt
instructs it to wait for Agent 1's thoughts and respond with its
specialized perspective (no self-introduction instruction). -/
theorem initial_prompts_task_only
    (task : String) (transcript transcript' : List String) (M M' : Int) :
    turn_prompts task transcript 1 M = turn_prompts task transcript' 1 M'
    ∧ turn_prompts task transcript 1 M = generate_initial_prompts task
    ∧ StrContains (generate_initial_prompts task).1
        "Begin by introducing yourself to Agent 2 and outline your initial thoughts on how to approach this task."
    ∧ StrContains (generate_initial_prompts task).2
        "Wait for Agent 1\x27s initial thoughts, then respond with your specialized perspective." := by
  refine ⟨rfl, rfl, ?_, ?_⟩
  · dsimp only [generate_initial_prompts]
    apply strContains_append_left
    exact strContains_of_strContainsB (by decide)
  · dsimp only [generate_initial_prompts]
    apply strContains_append_left
    exact strContains_of_strContainsB (by decide)

/-- C8: serializing a `CollaborationResult` to the JSON value tree
written by `save_results` and reading it back reproduces `task`,
`conversation_turns`, `conversation` (same order and contents) and
`summary` exactly. -/
theorem save_results_round_trip (r : CollaborationResult) :
    resultsOfJson (resultsJson r) = some r := by
  obtain ⟨task, n, conv, summary⟩ := r
  have hconv : decodeStringList (conv.map PyVal.str) = some conv := by
    induction conv with
    | nil => rfl
    | cons x xs ih => simp [decodeStringList, jsonAsString, ih]
  simp [resultsJson, resultsOfJson, dictGet, jsonAsString, hconv]

theorem collaborate_extends (gO : String → GeminiCall) (qO : String → GroqCall)
    (task : String) (conversation₀ : List String) :
    ∃ tail, (collaborate gO qO task conversation₀).conversation
        = conversation₀ ++ tail := by
  dsimp only [collaborate]
  obtain ⟨tl, htl⟩ := conversationLoop_extends gO qO task
    (determine_conversation_length gO task)
    (pyRange 2 (determine_conversation_length gO task + 1))
    (conversation₀
      ++ [gemini_agent (gO (generate_initial_prompts task).1)]
      ++ [groq_agent (qO ((generate_initial_prompts task).2 ++ "\n\nAgent 1 said: "
            ++ gemini_agent (gO (generate_initial_prompts task).1)))])
  refine ⟨[gemini_agent (gO (generate_initial_prompts task).1)]
      ++ ([groq_agent (qO ((generate_initial_prompts task).2 ++ "\n\nAgent 1 said: "
            ++ gemini_agent (gO (generate_initial_prompts task).1)))] ++ tl), ?_⟩
  rw [htl]
  simp

/-- C9 counterexample: the claim that the even/odd authorship
labeling holds "only for the first collaboration run" is false — each
run appends an even number of entries starting with Client A, so on a
second `collaborate` call on the same instance state every even
global index still holds a Client A response and every odd index a
Client B response.  Concretely, with Client A always answering "3"
(so the planner chooses 3 turns) and Client B always raising: after
two runs on the same instance the transcript is 12 strictly
alternating entries, Client A's at the even positions, so labeling by
parity remains accurate on the second run. -/
theorem second_run_labeling_accurate :
    (collaborate (fun _ => GeminiCall.text "3") (fun _ => GroqCall.exn "boom") "t"
        (collaborate (fun _ => GeminiCall.text "3") (fun _ => GroqCall.exn "boom")
          "t" []).conversation).conversation
      = ["3", "Groq Agent Error: boom", "3", "Groq Agent Error: boom",
         "3", "Groq Agent Error: boom", "3", "Groq Agent Error: boom",
         "3", "Groq Agent Error: boom", "3", "Groq Agent Error: boom"]
    ∧ "3" = gemini_agent (GeminiCall.text "3")
    ∧ "Groq Agent Error: boom" = groq_agent (GroqCall.exn "boom") :=
  ⟨by decide, rfl, rfl⟩

/-- C9 (amended): the transcript is instance state initialized to
`[]` at construction and never cleared by any operation — every
`collaborate` run appends to the transcript it starts from, adding an
even block of `2*N` entries that alternates Client A (even offset)
and Client B (odd offset) — so on a second run on the same instance
the `2N` transcript-length property fails (the length is
`2*N₁ + 2*N₂`); the even/odd authorship labeling, however, remains
accurate across runs: since each appended block has even length and
starts with Client A, every even global index of the two-run
transcript holds a Client A response and every odd index a Client B
response. -/
theorem conversation_state_and_labeling :
    initConversation = []
    ∧ (∀ (gO : String → GeminiCall) (qO : String → GroqCall)
          (task : String) (conversation₀ : List String),
        ∃ tail,
          (collaborate gO qO task conversation₀).conversation
              = conversation₀ ++ tail
          ∧ (tail.length : Int)
              = 2 * (collaborate gO qO task conversation₀).conversation_turns
          ∧ 2 ∣ tail.length
          ∧ (∀ j, j < tail.length →
              (j % 2 = 0 → ∃ p, tail[j]? = some (gemini_agent (gO p)))
              ∧ (j % 2 = 1 → ∃ p, tail[j]? = some (groq_agent (qO p)))))
    ∧ (∀ (gO : String → GeminiCall) (qO : String → GroqCall) (task task' : String),
        ((collaborate gO qO task
              (collaborate gO qO task' []).conversation).conversation.length : Int)
            = 2 * (collaborate gO qO task' []).conversation_turns
              + 2 * (collaborate gO qO task
                  (collaborate gO qO task' []).conversation).conversation_turns
        ∧ ((collaborate gO qO task
              (collaborate gO qO task' []).conversation).conversation.length : Int)
            ≠ 2 * (collaborate gO qO task
                (collaborate gO qO task' []).conversation).conversation_turns)
    ∧ (∀ (gO : String → GeminiCall) (qO : String → GroqCall) (task task' : String)
          (i : Nat),
        i < (collaborate gO qO task
            (collaborate gO qO task' []).conversation).conversation.length →
          (i % 2 = 0 → ∃ p,
            (collaborate gO qO task
                (collaborate gO qO task' []).conversation).conversation[i]?
              = some (gemini_agent (gO p)))
          ∧ (i % 2 = 1 → ∃ p,
            (collaborate gO qO task
                (collaborate gO qO task' []).conversation).conversation[i]?
              = some (groq_agent (qO p)))) := by
  refine ⟨rfl, ?_, ?_, ?_⟩
  · intro gO qO task conversation₀
    obtain ⟨tail, hext, hlen, hprop⟩ := collaborate_alternating gO qO task conversation₀
    rw [collaborate_turns]
    exact ⟨tail, hext, hlen, by omega, hprop⟩
  · intro gO qO task task'
    have h1 := collaborate_conversation_length gO qO task' []
    have h2 := collaborate_conversation_length gO qO task
      (collaborate gO qO task' []).conversation
    have hb1 := determine_conversation_length_bounds gO task'
    have hb2 := determine_conversation_length_bounds gO task
    rw [collaborate_turns, collaborate_turns]
    simp only [List.length_nil] at h1
    constructor <;> omega
  · intro gO qO task task' i hi
    obtain ⟨t₁, he₁, hl₁, hp₁⟩ := collaborate_alternating gO qO task' []
    obtain ⟨t₂, he₂, hl₂, hp₂⟩ := collaborate_alternating gO qO task
      (collaborate gO qO task' []).conversation
    have he₁' : (collaborate gO qO task' []).conversation = t₁ := by
      simpa using he₁
    have hb₁ := determine_conversation_length_bounds gO task'
    rw [he₂, he₁'] at hi ⊢
    rw [List.length_append] at hi
    by_cases hcase : i < t₁.length
    · rw [List.getElem?_append, if_pos hcase]
      exact hp₁ i hcase
    · rw [List.getElem?_append, if_neg hcase]
      have hj : i - t₁.length < t₂.length := by omega
      have hpar := hp₂ (i - t₁.length) hj
      constructor
      · intro heven
        exact hpar.1 (by omega)
      · intro hodd
        exact hpar.2 (by omega)

/-- Witness for C9 (amended): on a concrete fresh run whose planner
response is "4", the transcript's first entry is Client A's response. -/
theorem conversation_state_and_labeling_witness :
    ((collaborate (fun _ => GeminiCall.text "4") (fun _ => GroqCall.exn "e")
        "t" []).conversation)[0]?
      = some (gemini_agent (GeminiCall.text "4")) := by
  obtain ⟨tail, hext, hlen, _hdvd, hprop⟩ :=
    conversation_state_and_labeling.2.1
      (fun _ => GeminiCall.text "4") (fun _ => GroqCall.exn "e") "t" []
  have hturns : (collaborate (fun _ : String => GeminiCall.text "4")
      (fun _ : String => GroqCall.exn "e") "t" []).conversation_turns = 4 := by
    decide
  have h0 : 0 < tail.length := by omega
  obtain ⟨p, hp⟩ := (hprop 0 h0).1 rfl
  rw [hext]
  simp only [List.nil_append]
  exact hp

/-- C10: `generate_follow_up_prompts` and `generate_summary` render
the transcript history identically: the two embedded `history_text`
expressions are equal as functions of the transcript, that common
rendering appears verbatim in both follow-up prompts and in the
summary prompt, and the entry at index `i` is labelled "Agent 1
(Gemini)" when `i` is even and "Agent 2 (Deepseek)" when `i` is odd,
entries joined in order by the fixed separator. -/
theorem history_rendering_shared
    (conv : List String) (turn_number max_turns : Int) (task : String) (i : Nat) :
    history_text_follow_up conv = history_text_summary conv
    ∧ StrContains (generate_follow_up_prompts conv turn_number max_turns task).1
        (history_text_summary conv)
    ∧ StrContains (generate_follow_up_prompts conv turn_number max_turns task).2
        (history_text_summary conv)
    ∧ StrContains (summary_prompt task conv) (history_text_summary conv)
    ∧ (conv.enum.map (fun p => historyLine p.1 p.2))[i]?
        = conv[i]?.map (fun msg =>
            (if i % 2 = 0 then "Agent 1 (Gemini)" else "Agent 2 (Deepseek)")
              ++ ": " ++ msg) := by
  refine ⟨rfl, ?_, ?_, ?_, ?_⟩
  · dsimp only [generate_follow_up_prompts, history_text_follow_up,
      history_text_summary]
    repeat first
      | exact strContains_last _ _
      | apply strContains_append_right
  · dsimp only [generate_follow_up_prompts, history_text_follow_up,
      history_text_summary]
    repeat first
      | exact strContains_last _ _
      | apply strContains_append_right
  · dsimp only [summary_prompt, history_text_summary]
    repeat first
      | exact strContains_last _ _
      | apply strContains_append_right
  · cases hx : conv[i]? with
    | none => simp [List.getElem?_map, List.getElem?_enum, hx]
    | some msg => simp [List.getElem?_map, List.getElem?_enum, hx, historyLine]
